import Mathlib

/-!
Verification development for the Prism backend core: the document processing
pipeline (`app/documents/service.py`, `app/watson/llm_extraction.py`) and the
claims aggregation / trust scoring engine (`app/reputation/scoring.py`).

Modelling conventions:
* Python floats are modelled as exact rationals (`ℚ`); Python's `round(x, n)`
  (round half to even) is modelled by `round_to` below.
* The SQLAlchemy store is modelled as always-succeeding state passing: a
  user's reputation state is a record of claims, transactions and an id
  counter; the pipeline is a function from the outcomes of the external
  calls (text extraction, LLM classification, LLM extraction + JSON parse)
  to the final persisted document state and transaction rows.
* JSON values appearing in LLM extraction candidates are modelled by `JVal`;
  Python's `float(...)` conversion is `py_float` (decimal literals only;
  exponent forms, `inf`/`nan` and underscores are outside the model).
-/

namespace Prism

/-- Python's binary `min` on two numbers (`min(a, b)` is `a` when `a <= b`). -/
def py_min (a b : ℚ) : ℚ := if b < a then b else a

/-- Python's binary `max` on two numbers. -/
def py_max (a b : ℚ) : ℚ := if a < b then b else a

/-- Python's `abs` on a number. -/
def py_abs (q : ℚ) : ℚ := if q < 0 then -q else q

/-- Round a rational to the nearest integer, ties to even — the semantics of
Python's builtin `round`. -/
def round_half_even (q : ℚ) : ℤ :=
  let f := Rat.floor q
  if q - f < 1/2 then f
  else if (1:ℚ)/2 < q - f then f + 1
  else if f % 2 = 0 then f else f + 1

/-- Python's `round(q, n)`: round to `n` decimal places, ties to even. -/
def round_to (n : ℕ) (q : ℚ) : ℚ :=
  (round_half_even (q * 10 ^ n) : ℚ) / 10 ^ n

/-- Calendar date, as produced by `datetime.strptime` (only the date part is
ever populated by the pipeline's `_parse_date`). -/
structure Date where
  year : ℕ
  month : ℕ
  day : ℕ
deriving DecidableEq, Repr

/-- Numeric key giving the calendar order on valid dates (used for `min`/`max`
over contributing transaction dates). -/
def Date.key (d : Date) : ℕ := d.year * 10000 + d.month * 100 + d.day

def digitVal (c : Char) : Option ℕ :=
  if c.isDigit then some (c.toNat - 48) else none

/-- Match exactly four digits — the regex `\d\d\d\d` that CPython's
`_strptime` uses for the `%Y` directive. -/
def parse4 : List Char → Option (ℕ × List Char)
  | a :: b :: c :: d :: rest => do
    let x ← digitVal a
    let y ← digitVal b
    let z ← digitVal c
    let w ← digitVal d
    some (((x * 10 + y) * 10 + z) * 10 + w, rest)
  | _ => none

/-- Match one or two digits with greedy two-digit preference, as CPython's
`_strptime` regexes for `%m` (`1[0-2]|0[1-9]|[1-9]`) and `%d`
(`3[01]|[12]\d|0[1-9]|[1-9]`) do; `maxv` is 12 for `%m` and 31 for `%d`.
Backtracking never changes the outcome here because in every format the
directive is followed by a non-digit separator or end of input. -/
def parse12 (maxv : ℕ) : List Char → Option (ℕ × List Char)
  | a :: b :: rest =>
    match digitVal a, digitVal b with
    | some x, some y =>
      let v := x * 10 + y
      if x = 0 ∧ 1 ≤ v then some (v, rest)
      else if 10 ≤ v ∧ v ≤ maxv then some (v, rest)
      else if 1 ≤ x then some (x, b :: rest)
      else none
    | some x, _ => if 1 ≤ x then some (x, b :: rest) else none
    | none, _ => none
  | [a] =>
    match digitVal a with
    | some x => if 1 ≤ x then some (x, []) else none
    | none => none
  | [] => none

def expectChar (c : Char) : List Char → Option (List Char)
  | x :: rest => if x = c then some rest else none
  | [] => none

def isLeap (y : ℕ) : Bool := y % 4 = 0 && (y % 100 ≠ 0 || y % 400 = 0)

def daysInMonth (y m : ℕ) : ℕ :=
  if m = 2 then (if isLeap y then 29 else 28)
  else if m = 4 ∨ m = 6 ∨ m = 9 ∨ m = 11 then 30
  else 31

/-- The validity check `datetime.date` performs after the `_strptime` regex
match: year in `MINYEAR..MAXYEAR`, month 1–12, day in range for the month. -/
def mkValidDate (y m d : ℕ) : Option Date :=
  if 1 ≤ y ∧ y ≤ 9999 ∧ 1 ≤ m ∧ m ≤ 12 ∧ 1 ≤ d ∧ d ≤ daysInMonth y m then
    some ⟨y, m, d⟩
  else none

/-- The three date formats `_parse_date` tries, in source order. -/
inductive Fmt
  | iso
  | mdy
  | dmy
deriving DecidableEq, Repr

/-- CPython `datetime.strptime(s, fmt)` restricted to the three formats used
by `_parse_date` (`"%Y-%m-%d"`, `"%m/%d/%Y"`, `"%d/%m/%Y"`): regex match of
the whole string, then date validation; `none` models a raised `ValueError`. -/
def strptime (f : Fmt) (s : String) : Option Date :=
  match f with
  | .iso => do
    let (y, r1) ← parse4 s.toList
    let r2 ← expectChar '-' r1
    let (m, r3) ← parse12 12 r2
    let r4 ← expectChar '-' r3
    let (d, r5) ← parse12 31 r4
    if r5 = [] then mkValidDate y m d else none
  | .mdy => do
    let (m, r1) ← parse12 12 s.toList
    let r2 ← expectChar '/' r1
    let (d, r3) ← parse12 31 r2
    let r4 ← expectChar '/' r3
    let (y, r5) ← parse4 r4
    if r5 = [] then mkValidDate y m d else none
  | .dmy => do
    let (d, r1) ← parse12 31 s.toList
    let r2 ← expectChar '/' r1
    let (m, r3) ← parse12 12 r2
    let r4 ← expectChar '/' r3
    let (y, r5) ← parse4 r4
    if r5 = [] then mkValidDate y m d else none

/-- The ordered format list of `_parse_date` in `documents/service.py`. -/
def date_formats : List Fmt := [.iso, .mdy, .dmy]

/-- The `for fmt in ...: try strptime ... except ValueError: continue` loop. -/
def tryFormats : List Fmt → String → Option Date
  | [], _ => none
  | f :: fs, s =>
    match strptime f s with
    | some d => some d
    | none => tryFormats fs s

/-- `_parse_date` from `documents/service.py`: `None` (or an empty, falsy
string) yields `None`; otherwise the first format that parses wins; if none
parses the result is `None`. -/
def _parse_date (ds : Option String) : Option Date :=
  match ds with
  | none => none
  | some s => if s = "" then none else tryFormats date_formats s

/-- A JSON scalar as decoded by `json.loads` inside an extraction candidate
(arrays/objects nested in a field are not modelled; the pipeline never reads
them without raising). -/
inductive JVal
  | num (q : ℚ)
  | str (s : String)
  | jbool (b : Bool)
  | null
deriving DecidableEq, Repr

/-- Count and value of a maximal leading digit run. -/
def takeDigits : List Char → ℕ × ℕ × List Char
  | c :: rest =>
    if c.isDigit then
      let (v, n, r) := takeDigits rest
      ((c.toNat - 48) * 10 ^ n + v, n + 1, r)
    else (0, 0, c :: rest)
  | [] => (0, 0, [])

/-- Unsigned decimal literal: `digits`, `digits.digits`, `digits.` or
`.digits`. -/
def parseUnsigned (cs : List Char) : Option ℚ :=
  let (ip, ni, r1) := takeDigits cs
  match r1 with
  | [] => if ni = 0 then none else some ip
  | '.' :: r2 =>
    let (fp, nf, r3) := takeDigits r2
    if r3 = [] ∧ 0 < ni + nf then some ((ip : ℚ) + (fp : ℚ) / 10 ^ nf) else none
  | _ => none

/-- Python `float(s)` on a string: strip surrounding whitespace, optional
sign, plain decimal literal (exponents, `inf`/`nan`, underscores are outside
the model); `none` models a raised `ValueError`. -/
def parse_float_lit (s : String) : Option ℚ :=
  match s.trim.toList with
  | '+' :: rest => parseUnsigned rest
  | '-' :: rest => (parseUnsigned rest).map (fun q => -q)
  | rest => parseUnsigned rest

/-- Python `float(v)` on a decoded JSON scalar: numbers convert exactly,
booleans to 0/1, `None` raises `TypeError`, strings parse as decimal
literals or raise `ValueError`. `none` models a raised exception. -/
def py_float : JVal → Option ℚ
  | .num q => some q
  | .jbool b => some (if b then 1 else 0)
  | .null => none
  | .str s => parse_float_lit s

/-- One loosely-typed transaction candidate from the LLM's JSON array: each
field is `none` when the key is absent. `date` collapses a missing key and a
JSON `null` to `none` exactly as `txn.get("date")` does; likewise
`is_on_time`, `payee`, `description`. Candidates with non-string values in
the string-typed fields are outside the model. -/
structure Candidate where
  amount : Option JVal := none
  category : Option String := none
  currency : Option String := none
  date : Option String := none
  payee : Option String := none
  description : Option String := none
  is_on_time : Option Bool := none
deriving DecidableEq, Repr

/-- A persisted `ExtractedTransaction` row (fields read by the core;
`document_id`/`user_id` foreign keys and the generated id are omitted — the
aggregation engine receives the rows of one user). -/
structure ExtractedTxn where
  category : String
  amount : ℚ
  currency : String
  transaction_date : Option Date
  payee : Option String
  description : Option String
  is_on_time : Option Bool
  confidence : ℚ
deriving DecidableEq, Repr

/-- `float(txn.get("amount", 0))`: a missing key defaults to `0` before the
conversion, so only a present-but-unconvertible value raises. -/
def amount_val (a : Option JVal) : Option ℚ :=
  match a with
  | none => some 0
  | some v => py_float v

/-- Construction of one `ExtractedTransaction` in the Step-3 loop of
`process_document`; `.error` models the exception `float` raises on an
unconvertible amount. -/
def build_txn (c : Candidate) : Except String ExtractedTxn :=
  match amount_val c.amount with
  | none => .error "could not convert amount to float"
  | some q =>
    .ok { category := c.category.getD "other"
          amount := q
          currency := c.currency.getD "USD"
          transaction_date := _parse_date c.date
          payee := c.payee
          description := c.description
          is_on_time := c.is_on_time
          confidence := 17/20 }

/-- The Step-3 persistence loop: rows already added to the session before an
exception are still flushed by the `db.commit()` in the `except` branch, so
the result carries the successfully built prefix together with the first
error, if any. -/
def persist_loop : List Candidate → List ExtractedTxn × Option String
  | [] => ([], none)
  | c :: rest =>
    match build_txn c with
    | .error e => ([], some e)
    | .ok t =>
      let (ts, err) := persist_loop rest
      (t :: ts, err)

/-- Document status values written by the pipeline. -/
inductive DocStatus
  | uploaded
  | extracting
  | analyzing
  | completed
  | failed
deriving DecidableEq, Repr

/-- The persisted `Document` fields the pipeline reads or writes. -/
structure Doc where
  status : DocStatus
  rawText : Option String := none
  docType : Option String := none
  errorMessage : Option String := none
  processedAt : Bool := false
deriving DecidableEq, Repr

/-- `str(e)[:500]`. -/
def truncate500 (s : String) : String := s.take 500

/-- The closed category set of `classify_document`. -/
def valid_doc_types : List String := ["bank_statement", "rent_receipt", "utility_bill", "pay_stub", "other"]

/-- Post-processing in `classify_document`: `result.strip().lower()`,
normalized to `"other"` when outside the closed set. -/
def classify_normalize (raw : String) : String :=
  let c := raw.trim.toLower
  if c ∈ valid_doc_types then c else "other"

/-- The `try: ... except (ValueError, json.JSONDecodeError): return []` of
`extract_transactions` in `watson/llm_extraction.py`: the inner value is the
outcome of `result.index("[")`/`result.rindex("]")`/`json.loads`; a parse
failure yields the empty candidate list instead of raising. -/
def extract_transactions (p : Except Unit (List Candidate)) : List Candidate :=
  match p with
  | .ok l => l
  | .error _ => []

/-- Outcomes of the three external calls a `process_document` run makes, in
order: Watson text extraction, LLM classification (raw model output), LLM
transaction extraction (`.error` outside = the call itself raised; the inner
`Except` is the JSON-array parse outcome fed to `extract_transactions`). -/
structure PipelineEnv where
  textResult : Except String String
  classifyResult : Except String String
  extractResult : Except String (Except Unit (List Candidate))
deriving Repr

/-- `process_document` from `documents/service.py`, as a function from the
external-call outcomes to the final committed document state and transaction
rows. Store commits are modelled as always succeeding; the intermediate
`extracting`/`analyzing` statuses are committed and then overwritten before
the run returns, so only the final state appears. Any exception is caught by
the top-level `except`, which sets `failed`, truncates the message to 500
characters and commits (flushing any rows already added). -/
def process_document (env : PipelineEnv) (doc : Doc) : Doc × List ExtractedTxn :=
  match env.textResult with
  | .error e => ({ doc with status := .failed, errorMessage := some (truncate500 e) }, [])
  | .ok rawText =>
    match env.classifyResult with
    | .error e =>
      ({ doc with rawText := some rawText, status := .failed,
                  errorMessage := some (truncate500 e) }, [])
    | .ok clsRaw =>
      match env.extractResult with
      | .error e =>
        ({ doc with rawText := some rawText, docType := some (classify_normalize clsRaw),
                    status := .failed, errorMessage := some (truncate500 e) }, [])
      | .ok parseOutcome =>
        match persist_loop (extract_transactions parseOutcome) with
        | (ts, some e) =>
          ({ doc with rawText := some rawText, docType := some (classify_normalize clsRaw),
                      status := .failed, errorMessage := some (truncate500 e) }, ts)
        | (ts, none) =>
          ({ doc with rawText := some rawText, docType := some (classify_normalize clsRaw),
                      status := .completed, processedAt := true }, ts)

/-- A `VerifiableClaim` minus its generated identity. `claim_data` is the
JSON dict of named numeric fields in source insertion order; the constant
`"currency": "USD"` string entry written by the rent and income claims is
never read and never varies, and is carried outside the numeric map. The
`claim_text` f-string template is presentation-only (never read by any
modelled operation) and is omitted. -/
structure ClaimCore where
  user_id : String
  claim_type : String
  claim_data : List (String × ℚ)
  confidence : ℚ
  period_start : Option Date := none
  period_end : Option Date := none
deriving DecidableEq, Repr

/-- A persisted claim: core fields plus the store-generated identity. -/
structure Claim extends ClaimCore where
  id : ℕ
deriving DecidableEq, Repr

/-- The type, data and confidence of a claim — everything claim C2 compares
across recomputations. -/
def claimSig (c : Claim) : String × List (String × ℚ) × ℚ :=
  (c.claim_type, c.claim_data, c.confidence)

def coreSig (c : ClaimCore) : String × List (String × ℚ) × ℚ :=
  (c.claim_type, c.claim_data, c.confidence)

def rent_txns (ts : List ExtractedTxn) : List ExtractedTxn :=
  ts.filter (fun t => t.category = "rent")

def income_txns (ts : List ExtractedTxn) : List ExtractedTxn :=
  ts.filter (fun t => t.category = "income")

def utility_txns (ts : List ExtractedTxn) : List ExtractedTxn :=
  ts.filter (fun t => t.category = "utility")

/-- `sum(1 for t in txns if t.is_on_time is True)`. -/
def on_time_count (ts : List ExtractedTxn) : ℕ :=
  (ts.filter (fun t => t.is_on_time = some true)).length

/-- `[t.transaction_date for t in txns if t.transaction_date]`. -/
def txn_dates (ts : List ExtractedTxn) : List Date :=
  ts.filterMap (fun t => t.transaction_date)

/-- `min(dates)` under the calendar order (Python `datetime` comparison). -/
def min_date : List Date → Option Date
  | [] => none
  | d :: ds =>
    match min_date ds with
    | none => some d
    | some e => some (if d.key ≤ e.key then d else e)

/-- `max(dates)` under the calendar order. -/
def max_date : List Date → Option Date
  | [] => none
  | d :: ds =>
    match max_date ds with
    | none => some d
    | some e => some (if e.key ≤ d.key then d else e)

/-- Sum of `abs(t.amount)` over a transaction list. -/
def abs_amount_sum (ts : List ExtractedTxn) : ℚ :=
  (ts.map (fun t => py_abs t.amount)).sum

/-- The rent-history claim block of `recalculate_claims` (entered only when
the rent group is non-empty). -/
def rent_claim (uid : String) (rs : List ExtractedTxn) : ClaimCore :=
  { user_id := uid
    claim_type := "rent_history"
    claim_data :=
      [("total_payments", (rs.length : ℚ)),
       ("on_time_payments", (on_time_count rs : ℚ)),
       ("on_time_rate", if rs.length = 0 then 0 else round_to 2 ((on_time_count rs : ℚ) / rs.length)),
       ("average_amount", round_to 2 (abs_amount_sum rs / rs.length))]
    confidence := py_min (95/100) (6/10 + (rs.length : ℚ) * (3/100))
    period_start := min_date (txn_dates rs)
    period_end := max_date (txn_dates rs) }

/-- The income-stability claim block of `recalculate_claims`. -/
def income_claim (uid : String) (is : List ExtractedTxn) : ClaimCore :=
  { user_id := uid
    claim_type := "income_stability"
    claim_data :=
      [("total_deposits", (is.length : ℚ)),
       ("total_income", round_to 2 (abs_amount_sum is)),
       ("average_deposit", round_to 2 (abs_amount_sum is / is.length))]
    confidence := py_min (95/100) (5/10 + (is.length : ℚ) * (4/100))
    period_start := min_date (txn_dates is)
    period_end := max_date (txn_dates is) }

/-- The utility-payment claim block of `recalculate_claims`. -/
def utility_claim (uid : String) (us : List ExtractedTxn) : ClaimCore :=
  { user_id := uid
    claim_type := "utility_payment"
    claim_data :=
      [("total_payments", (us.length : ℚ)),
       ("on_time_payments", (on_time_count us : ℚ)),
       ("on_time_rate", if us.length = 0 then 0 else round_to 2 ((on_time_count us : ℚ) / us.length))]
    confidence := py_min (90/100) (5/10 + (us.length : ℚ) * (3/100))
    period_start := min_date (txn_dates us)
    period_end := max_date (txn_dates us) }

/-- `sum(abs(t.amount) for t in all_txns if t.amount > 0)`. -/
def total_inflow (ts : List ExtractedTxn) : ℚ :=
  abs_amount_sum (ts.filter (fun t => 0 < t.amount))

/-- `sum(abs(t.amount) for t in all_txns if t.amount < 0)`. -/
def total_outflow (ts : List ExtractedTxn) : ℚ :=
  abs_amount_sum (ts.filter (fun t => t.amount < 0))

/-- The bank-health claim block of `recalculate_claims` (its group is the
whole transaction list; no period fields are set). -/
def bank_claim (uid : String) (ts : List ExtractedTxn) : ClaimCore :=
  { user_id := uid
    claim_type := "bank_health"
    claim_data :=
      [("total_inflow", round_to 2 (total_inflow ts)),
       ("total_outflow", round_to 2 (total_outflow ts)),
       ("net_flow", round_to 2 (total_inflow ts - total_outflow ts)),
       ("transaction_count", (ts.length : ℚ))]
    confidence := py_min (90/100) (5/10 + (ts.length : ℚ) * (2/100)) }

/-- The claim list `recalculate_claims` builds from a non-empty transaction
list: at most one claim per category group, appended in source order; an
empty group contributes nothing. -/
def recalc_core (uid : String) (ts : List ExtractedTxn) : List ClaimCore :=
  (if rent_txns ts = [] then [] else [rent_claim uid (rent_txns ts)]) ++
  (if income_txns ts = [] then [] else [income_claim uid (income_txns ts)]) ++
  (if utility_txns ts = [] then [] else [utility_claim uid (utility_txns ts)]) ++
  (if ts = [] then [] else [bank_claim uid ts])

/-- Attach store-generated identities to freshly inserted claims. -/
def attachIds : ℕ → List ClaimCore → List Claim
  | _, [] => []
  | i, c :: cs => { toClaimCore := c, id := i } :: attachIds (i + 1) cs

/-- Sort key of `ORDER BY transaction_date` (`NULL`s first, as SQLite orders
ascending). -/
def txn_sort_key (t : ExtractedTxn) : ℕ :=
  match t.transaction_date with
  | none => 0
  | some d => d.key + 1

def insert_by_key (t : ExtractedTxn) : List ExtractedTxn → List ExtractedTxn
  | [] => [t]
  | u :: us => if txn_sort_key t ≤ txn_sort_key u then t :: u :: us else u :: insert_by_key t us

/-- The `ORDER BY transaction_date` load of the user's transactions. -/
def sort_txns (ts : List ExtractedTxn) : List ExtractedTxn :=
  ts.foldr insert_by_key []

/-- Per-user persisted reputation state: current claims, the user's
transactions, and the store's id counter for freshly inserted claims. -/
structure UserState where
  claims : List Claim
  txns : List ExtractedTxn
  nextId : ℕ
deriving Repr

/-- `recalculate_claims` from `reputation/scoring.py` over one user's state:
delete all existing claims, load all transactions ordered by date, return
the empty set on an empty load, otherwise insert the regenerated claims with
fresh identities and return them. -/
def recalculate_claims (uid : String) (s : UserState) : UserState × List Claim :=
  if sort_txns s.txns = [] then ({ s with claims := [] }, [])
  else
    ({ claims := attachIds s.nextId (recalc_core uid (sort_txns s.txns)),
       txns := s.txns,
       nextId := s.nextId + (recalc_core uid (sort_txns s.txns)).length },
     attachIds s.nextId (recalc_core uid (sort_txns s.txns)))

/-- `data.get(key, 0)` on a claim-data dict. -/
def data_get (d : List (String × ℚ)) (k : String) : ℚ :=
  match d.find? (fun kv => kv.1 = k) with
  | some kv => kv.2
  | none => 0

/-- `WEIGHTS.get(claim_type, 0.1)`: the fixed per-type weight table. -/
def weight_of (ct : String) : ℚ :=
  if ct = "rent_history" then 30/100
  else if ct = "income_stability" then 30/100
  else if ct = "utility_payment" then 20/100
  else if ct = "bank_health" then 20/100
  else 10/100

/-- The raw 0–100 sub-score branch ladder of `compute_trust_score`. -/
def raw_sub_score (ct : String) (data : List (String × ℚ)) : ℚ :=
  if ct = "rent_history" then
    (data_get data "on_time_rate" * (7/10) + py_min 1 (data_get data "total_payments" / 12) * (3/10)) * 100
  else if ct = "income_stability" then
    py_min 1 (data_get data "total_deposits" / 12) * 100
  else if ct = "utility_payment" then
    data_get data "on_time_rate" * 100
  else if ct = "bank_health" then
    py_min 100 (py_max 0 (50 + data_get data "net_flow" / 100))
  else 50

/-- One breakdown entry `{"raw_score": ..., "weight": ..., "weighted": ...}`. -/
structure BEntry where
  raw_score : ℚ
  weight : ℚ
  weighted : ℚ
deriving DecidableEq, Repr

def entry_for (c : Claim) : BEntry :=
  { raw_score := round_to 1 (raw_sub_score c.claim_type c.claim_data)
    weight := weight_of c.claim_type
    weighted := round_to 1 (raw_sub_score c.claim_type c.claim_data * weight_of c.claim_type) }

/-- Python-dict upsert: replace in place when the key exists, else append. -/
def dict_insert : List (String × BEntry) → String → BEntry → List (String × BEntry)
  | [], k, v => [(k, v)]
  | (k1, v1) :: rest, k, v =>
    if k1 = k then (k, v) :: rest else (k1, v1) :: dict_insert rest k v

/-- The `breakdown` dict built by the claim loop of `compute_trust_score`. -/
def mk_breakdown (claims : List Claim) : List (String × BEntry) :=
  claims.foldl (fun b c => dict_insert b c.claim_type (entry_for c)) []

/-- The threshold ladder mapping a rounded score to a level label. -/
def level_of (score : ℚ) : String :=
  if 80 ≤ score then "Excellent"
  else if 60 ≤ score then "Good"
  else if 40 ≤ score then "Fair"
  else if 20 ≤ score then "Building"
  else "New"

/-- The transient score value object. -/
structure ScoreResult where
  score : ℚ
  breakdown : List (String × BEntry)
  level : String
deriving DecidableEq, Repr

/-- `compute_trust_score` from `reputation/scoring.py`: an empty claim list
short-circuits to score 0 / "No Data"; otherwise the score is the sum of the
per-entry `weighted` values of the breakdown dict, clamped to `[0, 100]` and
rounded to one decimal. -/
def compute_trust_score (claims : List Claim) : ScoreResult :=
  if claims = [] then { score := 0, breakdown := [], level := "No Data" }
  else
    { score := round_to 1 (py_min 100 (py_max 0 (((mk_breakdown claims).map (fun kv => kv.2.weighted)).sum)))
      breakdown := mk_breakdown claims
      level := level_of (round_to 1 (py_min 100 (py_max 0 (((mk_breakdown claims).map (fun kv => kv.2.weighted)).sum)))) }

/-- Modelled from the spec's words, for refinement comparison with
`compute_trust_score` (claim C3): overall score = sum of raw sub-score times
weight across present claims, clamped to `[0, 100]`, rounded to one
decimal — with no per-claim rounding before the sum. -/
def spec_overall_score (claims : List Claim) : ℚ :=
  round_to 1 (py_min 100 (py_max 0
    ((claims.map (fun c => raw_sub_score c.claim_type c.claim_data * weight_of c.claim_type)).sum)))

/-- A rent-history claim as `recalculate_claims` could produce it (6 rent
payments, 5 on time: rate rounds to 0.83). -/
def cexRentClaim : Claim :=
  { user_id := "u", claim_type := "rent_history",
    claim_data := [("on_time_rate", 83/100), ("total_payments", 6)],
    confidence := 9/10, id := 0 }

/-- A bank-health claim with net flow 22.22. -/
def cexBankClaim : Claim :=
  { user_id := "u", claim_type := "bank_health",
    claim_data := [("net_flow", 1111/50)], confidence := 9/10, id := 1 }

/-- An extraction candidate whose `amount` key is present but holds JSON
`null`, so `float(txn.get("amount", 0))` raises `TypeError`. -/
def null_amount_cand : Candidate := { amount := some .null }

/-- A candidate dict with every key absent. -/
def empty_cand : Candidate := {}

/-- A run whose external calls all succeed and whose extraction yields the
single `null`-amount candidate. -/
def null_amount_env : PipelineEnv :=
  ⟨.ok "text", .ok "bank_statement", .ok (.ok [null_amount_cand])⟩

/-- A freshly uploaded document. -/
def fresh_doc : Doc := { status := .uploaded }

/-- One on-time rent payment of $1450 (Scenario A shape). -/
def demoRentTxn : ExtractedTxn :=
  { category := "rent", amount := -1450, currency := "USD",
    transaction_date := some ⟨2021, 1, 1⟩, payee := none, description := none,
    is_on_time := some true, confidence := 17/20 }

/-- One income deposit of $4200. -/
def demoIncomeTxn : ExtractedTxn :=
  { category := "income", amount := 4200, currency := "USD",
    transaction_date := some ⟨2021, 1, 5⟩, payee := none, description := none,
    is_on_time := none, confidence := 17/20 }

/-- One on-time utility payment of $100. -/
def demoUtilityTxn : ExtractedTxn :=
  { category := "utility", amount := -100, currency := "USD",
    transaction_date := some ⟨2021, 1, 9⟩, payee := none, description := none,
    is_on_time := some true, confidence := 17/20 }

/-- A user state holding one transaction of each scored category. -/
def demoState : UserState :=
  { claims := [], txns := [demoRentTxn, demoIncomeTxn, demoUtilityTxn], nextId := 0 }

/-- A user state with no transactions. -/
def emptyState : UserState := { claims := [], txns := [], nextId := 0 }

/-! Shared lemmas bridging the executable Python-faithful primitives to the
standard order operations, and structural lemmas about the model. -/

theorem py_min_eq (a b : ℚ) : py_min a b = min a b := by
  rw [py_min, min_def]
  split_ifs <;> first | rfl | linarith

theorem py_max_eq (a b : ℚ) : py_max a b = max a b := by
  rw [py_max, max_def]
  split_ifs <;> first | rfl | linarith

theorem py_abs_eq (q : ℚ) : py_abs q = |q| := by
  rw [py_abs]
  split_ifs with h
  · exact (abs_of_neg h).symm
  · exact (abs_of_nonneg (not_lt.mp h)).symm

theorem rat_floor_eq_intFloor (q : ℚ) : Rat.floor q = ⌊q⌋ :=
  (Rat.floor_def' q).trans Rat.floor_def.symm

theorem round_half_even_of_lt (q : ℚ) (f : ℤ) (h1 : (f : ℚ) ≤ q) (h2 : q - f < 1/2) :
    round_half_even q = f := by
  have hf : Rat.floor q = f := by
    rw [rat_floor_eq_intFloor]
    exact Int.floor_eq_iff.mpr ⟨h1, by linarith⟩
  simp only [round_half_even, hf]
  rw [if_pos h2]

theorem round_half_even_of_gt (q : ℚ) (f : ℤ) (h1 : (1:ℚ)/2 < q - f) (h2 : q < f + 1) :
    round_half_even q = f + 1 := by
  have hf : Rat.floor q = f := by
    rw [rat_floor_eq_intFloor]
    refine Int.floor_eq_iff.mpr ⟨by linarith, by linarith⟩
  simp only [round_half_even, hf]
  rw [if_neg (by linarith), if_pos h1]

theorem round_to_one_of_lt (q : ℚ) (f : ℤ) (h1 : (f : ℚ) ≤ q * 10) (h2 : q * 10 - f < 1/2) :
    round_to 1 q = f / 10 := by
  unfold round_to
  rw [show ((10:ℚ) ^ 1) = 10 by norm_num, round_half_even_of_lt (q * 10) f h1 h2]

theorem round_to_one_of_gt (q : ℚ) (f : ℤ) (h1 : (1:ℚ)/2 < q * 10 - f) (h2 : q * 10 < f + 1) :
    round_to 1 q = (f + 1) / 10 := by
  unfold round_to
  rw [show ((10:ℚ) ^ 1) = 10 by norm_num, round_half_even_of_gt (q * 10) f h1 h2]
  push_cast
  ring

theorem attachIds_map_claimSig (cs : List ClaimCore) :
    ∀ i, (attachIds i cs).map claimSig = cs.map coreSig := by
  induction cs with
  | nil => intro i; rfl
  | cons c cs ih => intro i; simp [attachIds, claimSig, coreSig, ih]

theorem attachIds_length (cs : List ClaimCore) :
    ∀ i, (attachIds i cs).length = cs.length := by
  induction cs with
  | nil => intro i; rfl
  | cons c cs ih => intro i; simp [attachIds, ih]

theorem mem_attachIds_of_mem (cs : List ClaimCore) (c0 : ClaimCore) :
    ∀ i, c0 ∈ cs → ∃ c ∈ attachIds i cs, c.toClaimCore = c0 := by
  induction cs with
  | nil => intro i h; cases h
  | cons c cs ih =>
    intro i h
    rcases List.mem_cons.mp h with h | h
    · exact ⟨{ toClaimCore := c, id := i }, List.mem_cons_self _ _, by rw [h]⟩
    · rcases ih (i + 1) h with ⟨c2, hmem, hc2⟩
      exact ⟨c2, List.mem_cons_of_mem _ hmem, hc2⟩

theorem insert_by_key_perm (t : ExtractedTxn) (l : List ExtractedTxn) :
    (insert_by_key t l).Perm (t :: l) := by
  induction l with
  | nil => simp [insert_by_key]
  | cons u us ih =>
    rw [insert_by_key]
    split_ifs
    · exact List.Perm.refl _
    · exact (List.Perm.cons u ih).trans (List.Perm.swap t u us)

theorem sort_txns_perm (ts : List ExtractedTxn) : (sort_txns ts).Perm ts := by
  induction ts with
  | nil => simp [sort_txns]
  | cons t ts ih =>
    have : sort_txns (t :: ts) = insert_by_key t (sort_txns ts) := rfl
    rw [this]
    exact (insert_by_key_perm t (sort_txns ts)).trans (List.Perm.cons t ih)

theorem sort_txns_eq_nil_iff (ts : List ExtractedTxn) : sort_txns ts = [] ↔ ts = [] := by
  constructor
  · intro h
    have := (sort_txns_perm ts).length_eq
    rw [h] at this
    exact List.length_eq_zero.mp this.symm
  · intro h; rw [h]; rfl

theorem filter_sort_txns_length (p : ExtractedTxn → Bool) (ts : List ExtractedTxn) :
    ((sort_txns ts).filter p).length = (ts.filter p).length :=
  ((sort_txns_perm ts).filter p).length_eq

theorem rent_mem_recalc_core (uid : String) (ts : List ExtractedTxn)
    (h : rent_txns ts ≠ []) : rent_claim uid (rent_txns ts) ∈ recalc_core uid ts := by
  simp [recalc_core, h]

theorem income_mem_recalc_core (uid : String) (ts : List ExtractedTxn)
    (h : income_txns ts ≠ []) : income_claim uid (income_txns ts) ∈ recalc_core uid ts := by
  simp [recalc_core, h]

theorem utility_mem_recalc_core (uid : String) (ts : List ExtractedTxn)
    (h : utility_txns ts ≠ []) : utility_claim uid (utility_txns ts) ∈ recalc_core uid ts := by
  simp [recalc_core, h]

theorem bank_mem_recalc_core (uid : String) (ts : List ExtractedTxn)
    (h : ts ≠ []) : bank_claim uid ts ∈ recalc_core uid ts := by
  simp [recalc_core, h]

theorem dict_insert_of_not_mem (b : List (String × BEntry)) (k : String) (v : BEntry)
    (h : k ∉ b.map Prod.fst) : dict_insert b k v = b ++ [(k, v)] := by
  induction b with
  | nil => rfl
  | cons kv rest ih =>
    rcases kv with ⟨k1, v1⟩
    simp only [List.map_cons, List.mem_cons] at h
    push_neg at h
    rw [dict_insert, if_neg (fun he => h.1 he.symm), ih h.2]
    rfl

theorem mk_breakdown_go (cs : List Claim) :
    ∀ acc, (∀ c ∈ cs, c.claim_type ∉ acc.map Prod.fst) →
    (cs.map (fun c => c.claim_type)).Nodup →
    cs.foldl (fun b c => dict_insert b c.claim_type (entry_for c)) acc =
      acc ++ cs.map (fun c => (c.claim_type, entry_for c)) := by
  induction cs with
  | nil => intro acc _ _; simp
  | cons c cs ih =>
    intro acc hfresh hnd
    simp only [List.map_cons, List.nodup_cons] at hnd
    simp only [List.foldl_cons]
    rw [dict_insert_of_not_mem acc c.claim_type _ (hfresh c (List.mem_cons_self _ _))]
    rw [ih (acc ++ [(c.claim_type, entry_for c)]) ?fresh hnd.2]
    · simp
    case fresh =>
      intro c2 hc2
      simp only [List.map_append, List.mem_append, List.map_cons, List.map_nil,
        List.mem_singleton, not_or]
      refine ⟨hfresh c2 (List.mem_cons_of_mem _ hc2), ?_⟩
      intro he
      exact hnd.1 (he ▸ List.mem_map_of_mem (fun c => c.claim_type) hc2)

theorem mk_breakdown_of_nodup (claims : List Claim)
    (hnd : (claims.map (fun c => c.claim_type)).Nodup) :
    mk_breakdown claims = claims.map (fun c => (c.claim_type, entry_for c)) := by
  have := mk_breakdown_go claims [] (by simp) hnd
  simpa [mk_breakdown] using this

/-- Claim C1: for every document that exists when `process_document` is
invoked, whatever the outcomes of the external calls and of candidate
parsing, after the run returns the document's status is exactly `completed`
or `failed` — never `extracting` or `analyzing` — because any uncaught error
is caught by the top-level `except` and results in `failed`. -/
theorem process_document_terminal (env : PipelineEnv) (doc : Doc) :
    (process_document env doc).1.status = DocStatus.completed ∨
    (process_document env doc).1.status = DocStatus.failed := by
  rcases env with ⟨tr, cr, er⟩
  cases tr with
  | error e => right; rfl
  | ok raw =>
    cases cr with
    | error e => right; rfl
    | ok cls =>
      cases er with
      | error e => right; rfl
      | ok p =>
        rcases h : persist_loop (extract_transactions p) with ⟨ts, err⟩
        cases err with
        | none => left; simp [process_document, h]
        | some e => right; simp [process_document, h]

/-- Claim C2: `recalculate_claims` is idempotent — running it twice in a row
on the same user with no change to the transaction set yields claim lists
with identical claim type, claim data and confidence per claim; only the
store-generated identities may differ. -/
theorem recalculate_claims_idempotent (uid : String) (s : UserState) :
    ((recalculate_claims uid (recalculate_claims uid s).1).2.map claimSig) =
    ((recalculate_claims uid s).2.map claimSig) := by
  by_cases h : sort_txns s.txns = []
  · simp [recalculate_claims, h]
  · simp [recalculate_claims, h, attachIds_map_claimSig]

/-- Claim C5: when the extraction provider's response cannot be parsed as a
JSON array at all, `extract_transactions` returns the empty list instead of
raising, and the document still reaches `completed` with zero persisted
transactions. -/
theorem extraction_parse_failure_completes (doc : Doc) (raw cls : String) :
    extract_transactions (Except.error ()) = [] ∧
    (process_document ⟨.ok raw, .ok cls, .ok (.error ())⟩ doc).1.status = DocStatus.completed ∧
    (process_document ⟨.ok raw, .ok cls, .ok (.error ())⟩ doc).2 = [] :=
  ⟨rfl, rfl, rfl⟩

/-- Claim C9: at the empty boundary, `recalculate_claims` on a user with an
empty transaction set yields zero claims, and `compute_trust_score` on an
empty claim list returns exactly score 0 with level "No Data", bypassing
the weight sum entirely. -/
theorem empty_boundary (uid : String) (s : UserState) (h : s.txns = []) :
    (recalculate_claims uid s).2 = [] ∧ (recalculate_claims uid s).1.claims = [] ∧
    compute_trust_score [] = { score := 0, breakdown := [], level := "No Data" } := by
  have hs : sort_txns s.txns = [] := by rw [h]; rfl
  refine ⟨?_, ?_, rfl⟩ <;> simp [recalculate_claims, hs]

/-- Witness for C9 at the concrete empty state. -/
theorem empty_boundary_witness :
    emptyState.txns = [] ∧
    ((recalculate_claims "u" emptyState).2 = [] ∧
     (recalculate_claims "u" emptyState).1.claims = [] ∧
     compute_trust_score [] = { score := 0, breakdown := [], level := "No Data" }) :=
  ⟨rfl, empty_boundary "u" emptyState rfl⟩

/-- A single candidate with a missing `amount` key is persisted with the
defensive defaults and never fails the run. -/
theorem single_candidate_missing_amount (c : Candidate) (doc : Doc) (raw cls : String)
    (h : c.amount = none) :
    (process_document ⟨.ok raw, .ok cls, .ok (.ok [c])⟩ doc).1.status = DocStatus.completed ∧
    (process_document ⟨.ok raw, .ok cls, .ok (.ok [c])⟩ doc).2 =
      [{ category := c.category.getD "other", amount := 0, currency := c.currency.getD "USD",
         transaction_date := _parse_date c.date, payee := c.payee, description := c.description,
         is_on_time := c.is_on_time, confidence := 17/20 }] := by
  constructor <;>
    simp [process_document, extract_transactions, persist_loop, build_txn, amount_val, h]

/-- Counterexample to C4 as stated: a candidate whose `amount` key is
present but holds JSON `null` is not defaulted to 0 — `float(None)` raises,
the top-level handler catches it, and the run ends `failed` with no
transaction persisted. -/
theorem unparseable_amount_fails_cex :
    (process_document null_amount_env fresh_doc).1.status = DocStatus.failed ∧
    (process_document null_amount_env fresh_doc).2 = [] := by
  constructor
  · rfl
  · rfl

/-- Claim C4 as amended: in the Step-3 defensive parsing, a missing `amount`
key defaults to 0 and a missing `category` key defaults to `"other"`, and
neither missing key causes the run to fail (the document completes and the
row is persisted with those defaults); however an `amount` that is present
but not convertible by `float` (e.g. JSON `null`) raises and causes the run
to end `failed`, as the counterexample shows. -/
theorem missing_amount_defaults_amended (c : Candidate) (doc : Doc) (raw cls : String)
    (h : c.amount = none) :
    (process_document ⟨.ok raw, .ok cls, .ok (.ok [c])⟩ doc).1.status = DocStatus.completed ∧
    (process_document ⟨.ok raw, .ok cls, .ok (.ok [c])⟩ doc).2 =
      [{ category := c.category.getD "other", amount := 0, currency := c.currency.getD "USD",
         transaction_date := _parse_date c.date, payee := c.payee, description := c.description,
         is_on_time := c.is_on_time, confidence := 17/20 }] :=
  single_candidate_missing_amount c doc raw cls h

/-- Witness for the amended C4 at the all-keys-absent candidate. -/
theorem missing_amount_defaults_amended_witness :
    empty_cand.amount = none ∧
    ((process_document ⟨.ok "t", .ok "bank_statement", .ok (.ok [empty_cand])⟩ fresh_doc).1.status
        = DocStatus.completed ∧
     (process_document ⟨.ok "t", .ok "bank_statement", .ok (.ok [empty_cand])⟩ fresh_doc).2 =
      [{ category := empty_cand.category.getD "other", amount := 0,
         currency := empty_cand.currency.getD "USD",
         transaction_date := _parse_date empty_cand.date, payee := empty_cand.payee,
         description := empty_cand.description, is_on_time := empty_cand.is_on_time,
         confidence := 17/20 }]) :=
  ⟨rfl, missing_amount_defaults_amended empty_cand fresh_doc "t" "bank_statement" rfl⟩

/-- Claim C8: `_parse_date` tries the ordered format list ISO `YYYY-MM-DD`,
then `MM/DD/YYYY`, then `DD/MM/YYYY`, keeping the first format that parses;
a missing or unparseable date string yields a null transaction date; and a
candidate's date never makes the run fail — the run completes and persists
the row with exactly `_parse_date` of the candidate's date string. -/
theorem parse_date_format_order (s : String) (d : Date) :
    _parse_date none = none ∧
    (strptime .iso s = some d → _parse_date (some s) = some d) ∧
    (strptime .iso s = none → strptime .mdy s = some d → _parse_date (some s) = some d) ∧
    (strptime .iso s = none → strptime .mdy s = none → strptime .dmy s = some d →
      _parse_date (some s) = some d) ∧
    (strptime .iso s = none → strptime .mdy s = none → strptime .dmy s = none →
      _parse_date (some s) = none) ∧
    (∀ (doc : Doc) (raw cls : String) (cand : Candidate), cand.amount = none →
      (process_document ⟨.ok raw, .ok cls, .ok (.ok [cand])⟩ doc).1.status
          = DocStatus.completed ∧
      (process_document ⟨.ok raw, .ok cls, .ok (.ok [cand])⟩ doc).2.map
          (fun t => t.transaction_date) = [_parse_date cand.date]) := by
  have hempty : ∀ f : Fmt, strptime f "" = none := by intro f; cases f <;> rfl
  by_cases hs : s = ""
  · subst hs
    refine ⟨rfl, ?_, ?_, ?_, ?_, ?_⟩
    · intro hiso; rw [hempty .iso] at hiso; cases hiso
    · intro _ hmdy; rw [hempty .mdy] at hmdy; cases hmdy
    · intro _ _ hdmy; rw [hempty .dmy] at hdmy; cases hdmy
    · intro _ _ _; rfl
    · intro doc raw cls cand h
      exact ⟨(single_candidate_missing_amount cand doc raw cls h).1, by
        rw [(single_candidate_missing_amount cand doc raw cls h).2]; rfl⟩
  · refine ⟨rfl, ?_, ?_, ?_, ?_, ?_⟩
    · intro hiso; simp [_parse_date, hs, date_formats, tryFormats, hiso]
    · intro hiso hmdy; simp [_parse_date, hs, date_formats, tryFormats, hiso, hmdy]
    · intro hiso hmdy hdmy; simp [_parse_date, hs, date_formats, tryFormats, hiso, hmdy, hdmy]
    · intro hiso hmdy hdmy; simp [_parse_date, hs, date_formats, tryFormats, hiso, hmdy, hdmy]
    · intro doc raw cls cand h
      exact ⟨(single_candidate_missing_amount cand doc raw cls h).1, by
        rw [(single_candidate_missing_amount cand doc raw cls h).2]; rfl⟩

/-- Witness for C8: the locale-ambiguous string "03/04/2021" fails ISO,
parses under `MM/DD/YYYY` as March 4, and `_parse_date` keeps that first
match (never reaching `DD/MM/YYYY`, which would have read April 3). -/
theorem parse_date_format_order_witness :
    strptime .iso "03/04/2021" = none ∧
    strptime .mdy "03/04/2021" = some ⟨2021, 3, 4⟩ ∧
    _parse_date (some "03/04/2021") = some ⟨2021, 3, 4⟩ :=
  ⟨by decide, by decide,
   (parse_date_format_order "03/04/2021" ⟨2021, 3, 4⟩).2.2.1 (by decide) (by decide)⟩

/-- Claim C6: the raw 0–100 sub-score used by `compute_trust_score` is
computed per claim type by the stated formulas — rent_history
`(0.7*rate + 0.3*min(1, total/12))*100`, income_stability
`min(1, deposits/12)*100`, utility_payment `rate*100`, bank_health
`clamp(50 + net_flow/100, 0, 100)`, any unrecognized type 50 — and in
particular one on-time rent payment yields a rent_history raw sub-score of
exactly 72.5. -/
theorem raw_sub_score_formulas (d : List (String × ℚ)) (t : String) :
    raw_sub_score "rent_history" d =
      (data_get d "on_time_rate" * (7/10) + min 1 (data_get d "total_payments" / 12) * (3/10)) * 100 ∧
    raw_sub_score "income_stability" d = min 1 (data_get d "total_deposits" / 12) * 100 ∧
    raw_sub_score "utility_payment" d = data_get d "on_time_rate" * 100 ∧
    raw_sub_score "bank_health" d = min 100 (max 0 (50 + data_get d "net_flow" / 100)) ∧
    (t ∉ ["rent_history", "income_stability", "utility_payment", "bank_health"] →
      raw_sub_score t d = 50) ∧
    raw_sub_score "rent_history" [("on_time_rate", 1), ("total_payments", 1)] = 145/2 := by
  refine ⟨?_, ?_, ?_, ?_, ?_, ?_⟩
  · simp [raw_sub_score, py_min_eq]
  · simp [raw_sub_score, py_min_eq]
  · simp [raw_sub_score]
  · simp [raw_sub_score, py_min_eq, py_max_eq]
  · intro ht
    simp only [List.mem_cons, List.not_mem_nil, or_false, not_or] at ht
    rw [raw_sub_score, if_neg ht.1, if_neg ht.2.1, if_neg ht.2.2.1, if_neg ht.2.2.2]
  · simp [raw_sub_score, data_get, List.find?, py_min]
    rw [if_pos (show (12:ℚ)⁻¹ < 1 by norm_num)]
    norm_num

/-- Witness for C6: "loan_history" is outside the recognized type set and
scores a flat 50. -/
theorem raw_sub_score_formulas_witness :
    ("loan_history" ∉ ["rent_history", "income_stability", "utility_payment", "bank_health"]) ∧
    raw_sub_score "loan_history" [] = 50 :=
  ⟨by decide, (raw_sub_score_formulas [] "loan_history").2.2.2.2.1 (by decide)⟩

/-- Claim C7: for every non-empty category group, the claim produced by
`recalculate_claims` carries the confidence of the per-type formula:
rent_history `min(0.95, 0.6 + 0.03*total)`, income_stability
`min(0.95, 0.5 + 0.04*count)`, utility_payment `min(0.90, 0.5 + 0.03*total)`,
bank_health `min(0.90, 0.5 + 0.02*count)`. -/
theorem recalculate_claims_confidence (uid : String) (s : UserState) :
    (rent_txns s.txns ≠ [] →
      ∃ c ∈ (recalculate_claims uid s).2, c.claim_type = "rent_history" ∧
        c.confidence = min (95/100 : ℚ) (6/10 + ((rent_txns s.txns).length : ℚ) * (3/100))) ∧
    (income_txns s.txns ≠ [] →
      ∃ c ∈ (recalculate_claims uid s).2, c.claim_type = "income_stability" ∧
        c.confidence = min (95/100 : ℚ) (5/10 + ((income_txns s.txns).length : ℚ) * (4/100))) ∧
    (utility_txns s.txns ≠ [] →
      ∃ c ∈ (recalculate_claims uid s).2, c.claim_type = "utility_payment" ∧
        c.confidence = min (90/100 : ℚ) (5/10 + ((utility_txns s.txns).length : ℚ) * (3/100))) ∧
    (s.txns ≠ [] →
      ∃ c ∈ (recalculate_claims uid s).2, c.claim_type = "bank_health" ∧
        c.confidence = min (90/100 : ℚ) (5/10 + (s.txns.length : ℚ) * (2/100))) := by
  refine ⟨?_, ?_, ?_, ?_⟩
  · intro h
    have hsne : s.txns ≠ [] := fun he => h (by rw [he]; rfl)
    have hsort : sort_txns s.txns ≠ [] := by rw [Ne, sort_txns_eq_nil_iff]; exact hsne
    have h2 : (recalculate_claims uid s).2 =
        attachIds s.nextId (recalc_core uid (sort_txns s.txns)) := by
      rw [recalculate_claims, if_neg hsort]
    have hlen : (rent_txns (sort_txns s.txns)).length = (rent_txns s.txns).length :=
      filter_sort_txns_length _ s.txns
    have hgrp : rent_txns (sort_txns s.txns) ≠ [] := by
      intro he
      apply h
      rw [he] at hlen
      exact List.length_eq_zero.mp hlen.symm
    rcases mem_attachIds_of_mem _ _ s.nextId (rent_mem_recalc_core uid _ hgrp) with ⟨c, hcmem, hc⟩
    refine ⟨c, by rw [h2]; exact hcmem, ?_, ?_⟩
    · rw [show c.claim_type = c.toClaimCore.claim_type from rfl, hc]; rfl
    · rw [show c.confidence = c.toClaimCore.confidence from rfl, hc,
        show (rent_claim uid (rent_txns (sort_txns s.txns))).confidence =
          py_min (95/100) (6/10 + ((rent_txns (sort_txns s.txns)).length : ℚ) * (3/100)) from rfl,
        hlen, py_min_eq]
  · intro h
    have hsne : s.txns ≠ [] := fun he => h (by rw [he]; rfl)
    have hsort : sort_txns s.txns ≠ [] := by rw [Ne, sort_txns_eq_nil_iff]; exact hsne
    have h2 : (recalculate_claims uid s).2 =
        attachIds s.nextId (recalc_core uid (sort_txns s.txns)) := by
      rw [recalculate_claims, if_neg hsort]
    have hlen : (income_txns (sort_txns s.txns)).length = (income_txns s.txns).length :=
      filter_sort_txns_length _ s.txns
    have hgrp : income_txns (sort_txns s.txns) ≠ [] := by
      intro he
      apply h
      rw [he] at hlen
      exact List.length_eq_zero.mp hlen.symm
    rcases mem_attachIds_of_mem _ _ s.nextId (income_mem_recalc_core uid _ hgrp) with ⟨c, hcmem, hc⟩
    refine ⟨c, by rw [h2]; exact hcmem, ?_, ?_⟩
    · rw [show c.claim_type = c.toClaimCore.claim_type from rfl, hc]; rfl
    · rw [show c.confidence = c.toClaimCore.confidence from rfl, hc,
        show (income_claim uid (income_txns (sort_txns s.txns))).confidence =
          py_min (95/100) (5/10 + ((income_txns (sort_txns s.txns)).length : ℚ) * (4/100)) from rfl,
        hlen, py_min_eq]
  · intro h
    have hsne : s.txns ≠ [] := fun he => h (by rw [he]; rfl)
    have hsort : sort_txns s.txns ≠ [] := by rw [Ne, sort_txns_eq_nil_iff]; exact hsne
    have h2 : (recalculate_claims uid s).2 =
        attachIds s.nextId (recalc_core uid (sort_txns s.txns)) := by
      rw [recalculate_claims, if_neg hsort]
    have hlen : (utility_txns (sort_txns s.txns)).length = (utility_txns s.txns).length :=
      filter_sort_txns_length _ s.txns
    have hgrp : utility_txns (sort_txns s.txns) ≠ [] := by
      intro he
      apply h
      rw [he] at hlen
      exact List.length_eq_zero.mp hlen.symm
    rcases mem_attachIds_of_mem _ _ s.nextId (utility_mem_recalc_core uid _ hgrp) with ⟨c, hcmem, hc⟩
    refine ⟨c, by rw [h2]; exact hcmem, ?_, ?_⟩
    · rw [show c.claim_type = c.toClaimCore.claim_type from rfl, hc]; rfl
    · rw [show c.confidence = c.toClaimCore.confidence from rfl, hc,
        show (utility_claim uid (utility_txns (sort_txns s.txns))).confidence =
          py_min (90/100) (5/10 + ((utility_txns (sort_txns s.txns)).length : ℚ) * (3/100)) from rfl,
        hlen, py_min_eq]
  · intro h
    have hsort : sort_txns s.txns ≠ [] := by rw [Ne, sort_txns_eq_nil_iff]; exact h
    have h2 : (recalculate_claims uid s).2 =
        attachIds s.nextId (recalc_core uid (sort_txns s.txns)) := by
      rw [recalculate_claims, if_neg hsort]
    have hlen : (sort_txns s.txns).length = s.txns.length := (sort_txns_perm s.txns).length_eq
    rcases mem_attachIds_of_mem _ _ s.nextId (bank_mem_recalc_core uid _ hsort) with ⟨c, hcmem, hc⟩
    refine ⟨c, by rw [h2]; exact hcmem, ?_, ?_⟩
    · rw [show c.claim_type = c.toClaimCore.claim_type from rfl, hc]; rfl
    · rw [show c.confidence = c.toClaimCore.confidence from rfl, hc,
        show (bank_claim uid (sort_txns s.txns)).confidence =
          py_min (90/100) (5/10 + ((sort_txns s.txns).length : ℚ) * (2/100)) from rfl,
        hlen, py_min_eq]

/-- Witness for C7 at a state with one transaction of each category. -/
theorem recalculate_claims_confidence_witness :
    rent_txns demoState.txns ≠ [] ∧
    (∃ c ∈ (recalculate_claims "u" demoState).2, c.claim_type = "rent_history" ∧
      c.confidence = min (95/100 : ℚ) (6/10 + ((rent_txns demoState.txns).length : ℚ) * (3/100))) :=
  ⟨by decide, (recalculate_claims_confidence "u" demoState).1 (by decide)⟩

theorem recalc_core_length_le (uid : String) (ts : List ExtractedTxn) :
    (recalc_core uid ts).length ≤ 4 := by
  rw [recalc_core]
  split_ifs <;> simp

/-- Claim C10: whenever a user has at least one transaction,
`recalculate_claims` produces a bank_health claim (its input group is the
whole transaction set), the resulting claim set has between 1 and 4 members,
and the result is empty exactly when the transaction set is empty. -/
theorem recalculate_claims_bank_always (uid : String) (s : UserState) :
    (s.txns ≠ [] → ∃ c ∈ (recalculate_claims uid s).2, c.claim_type = "bank_health") ∧
    (s.txns ≠ [] → 1 ≤ (recalculate_claims uid s).2.length ∧
      (recalculate_claims uid s).2.length ≤ 4) ∧
    ((recalculate_claims uid s).2 = [] ↔ s.txns = []) := by
  by_cases hne : s.txns = []
  · have hsort : sort_txns s.txns = [] := by rw [hne]; rfl
    refine ⟨fun h => absurd hne h, fun h => absurd hne h, ?_⟩
    rw [recalculate_claims, if_pos hsort]
    simp [hne]
  · have hsort : sort_txns s.txns ≠ [] := by rw [Ne, sort_txns_eq_nil_iff]; exact hne
    have h2 : (recalculate_claims uid s).2 =
        attachIds s.nextId (recalc_core uid (sort_txns s.txns)) := by
      rw [recalculate_claims, if_neg hsort]
    have hcore := bank_mem_recalc_core uid _ hsort
    rcases mem_attachIds_of_mem _ _ s.nextId hcore with ⟨c, hcmem, hc⟩
    have hmem2 : c ∈ (recalculate_claims uid s).2 := by rw [h2]; exact hcmem
    refine ⟨fun _ => ⟨c, hmem2, ?_⟩, fun _ => ⟨?_, ?_⟩, ?_, ?_⟩
    · rw [show c.claim_type = c.toClaimCore.claim_type from rfl, hc]; rfl
    · rw [h2, attachIds_length]
      exact List.length_pos.mpr (List.ne_nil_of_mem hcore)
    · rw [h2, attachIds_length]
      exact recalc_core_length_le uid _
    · intro he
      exact absurd (he ▸ hmem2) (List.not_mem_nil c)
    · intro he
      exact absurd he hne

/-- Witness for C10 at a state with three transactions. -/
theorem recalculate_claims_bank_always_witness :
    demoState.txns ≠ [] ∧
    (∃ c ∈ (recalculate_claims "u" demoState).2, c.claim_type = "bank_health") :=
  ⟨by decide, (recalculate_claims_bank_always "u" demoState).1 (by decide)⟩

theorem cexRent_weighted :
    round_to 1 (raw_sub_score cexRentClaim.claim_type cexRentClaim.claim_data *
      weight_of cexRentClaim.claim_type) = 219/10 := by
  simp [raw_sub_score, data_get, List.find?, py_min, weight_of, cexRentClaim]
  rw [if_pos (show (6:ℚ)/12 < 1 by norm_num)]
  norm_num
  rw [round_to_one_of_lt (2193/100) 219 (by norm_num) (by norm_num)]
  norm_num

theorem cexBank_weighted :
    round_to 1 (raw_sub_score cexBankClaim.claim_type cexBankClaim.claim_data *
      weight_of cexBankClaim.claim_type) = 10 := by
  simp [raw_sub_score, data_get, List.find?, py_min, py_max, weight_of, cexBankClaim]
  rw [if_pos (show (0:ℚ) < 50 + 1111/50/100 by norm_num),
      if_pos (show (50:ℚ) + 1111/50/100 < 100 by norm_num)]
  norm_num
  rw [round_to_one_of_lt (251111/25000) 100 (by norm_num) (by norm_num)]
  norm_num

/-- Counterexample to C3 as stated: on a rent_history claim (on-time rate
0.83, 6 payments) plus a bank_health claim (net flow 22.22), the code's
score is 31.9 — the sum of the per-claim weighted contributions, each
rounded to one decimal before summing (21.9 + 10.0) — while the spec's
formula rounds only once and yields 32.0 (21.93 + 10.04444 = 31.97444). -/
theorem compute_trust_score_rounding_cex :
    (compute_trust_score [cexRentClaim, cexBankClaim]).score = 319/10 ∧
    spec_overall_score [cexRentClaim, cexBankClaim] = 32 ∧
    ((319:ℚ)/10) ≠ 32 := by
  refine ⟨?_, ?_, by norm_num⟩
  · have h1 : compute_trust_score [cexRentClaim, cexBankClaim] =
        { score := round_to 1 (py_min 100 (py_max 0
            (((mk_breakdown [cexRentClaim, cexBankClaim]).map (fun kv => kv.2.weighted)).sum)))
          breakdown := mk_breakdown [cexRentClaim, cexBankClaim]
          level := level_of (round_to 1 (py_min 100 (py_max 0
            (((mk_breakdown [cexRentClaim, cexBankClaim]).map (fun kv => kv.2.weighted)).sum)))) } := by
      simp [compute_trust_score]
    rw [h1]
    have h2 : mk_breakdown [cexRentClaim, cexBankClaim] =
        [(cexRentClaim.claim_type, entry_for cexRentClaim),
         (cexBankClaim.claim_type, entry_for cexBankClaim)] := by
      simp [mk_breakdown, dict_insert, cexRentClaim, cexBankClaim]
    simp only [h2, List.map_cons, List.map_nil, List.sum_cons, List.sum_nil, entry_for]
    rw [cexRent_weighted, cexBank_weighted]
    rw [show (219:ℚ)/10 + (10 + 0) = 319/10 by norm_num]
    rw [show py_min 100 (py_max 0 (319/10)) = 319/10 by
      rw [py_max, if_pos (show (0:ℚ) < 319/10 by norm_num), py_min,
        if_pos (show (319:ℚ)/10 < 100 by norm_num)]]
    rw [round_to_one_of_lt (319/10) 319 (by norm_num) (by norm_num)]
    norm_num
  · unfold spec_overall_score
    have hr : raw_sub_score cexRentClaim.claim_type cexRentClaim.claim_data *
        weight_of cexRentClaim.claim_type = 2193/100 := by
      simp [raw_sub_score, data_get, List.find?, py_min, weight_of, cexRentClaim]
      rw [if_pos (show (6:ℚ)/12 < 1 by norm_num)]
      norm_num
    have hb : raw_sub_score cexBankClaim.claim_type cexBankClaim.claim_data *
        weight_of cexBankClaim.claim_type = 251111/25000 := by
      simp [raw_sub_score, data_get, List.find?, py_min, py_max, weight_of, cexBankClaim]
      rw [if_pos (show (0:ℚ) < 50 + 1111/50/100 by norm_num),
          if_pos (show (50:ℚ) + 1111/50/100 < 100 by norm_num)]
      norm_num
    simp only [List.map_cons, List.map_nil, List.sum_cons, List.sum_nil, hr, hb]
    rw [show (2193:ℚ)/100 + (251111/25000 + 0) = 799361/25000 by norm_num]
    rw [show py_min 100 (py_max 0 (799361/25000)) = 799361/25000 by
      rw [py_max, if_pos (show (0:ℚ) < 799361/25000 by norm_num), py_min,
        if_pos (show (799361:ℚ)/25000 < 100 by norm_num)]]
    rw [round_to_one_of_gt (799361/25000) 319 (by norm_num) (by norm_num)]
    norm_num

/-- Claim C3 as amended: for a non-empty claim list with pairwise distinct
claim types, the overall trust score equals the sum over present claims of
the per-claim weighted contribution `round(raw*weight, 1)` — each rounded to
one decimal before summing — clamped to `[0, 100]` and rounded to one
decimal; the weights are the fixed per-type values (rent_history 0.30,
income_stability 0.30, utility_payment 0.20, bank_health 0.20, any
unrecognized type 0.10) and are not renormalized over the present types. -/
theorem compute_trust_score_amended (claims : List Claim)
    (hne : claims ≠ []) (hnd : (claims.map (fun c => c.claim_type)).Nodup) :
    (compute_trust_score claims).score =
      round_to 1 (min 100 (max 0 ((claims.map (fun c =>
        round_to 1 (raw_sub_score c.claim_type c.claim_data * weight_of c.claim_type))).sum))) ∧
    weight_of "rent_history" = 30/100 ∧ weight_of "income_stability" = 30/100 ∧
    weight_of "utility_payment" = 20/100 ∧ weight_of "bank_health" = 20/100 ∧
    (∀ t : String, t ∉ ["rent_history", "income_stability", "utility_payment", "bank_health"] →
      weight_of t = 10/100) := by
  refine ⟨?_, rfl, rfl, rfl, rfl, ?_⟩
  · rw [compute_trust_score, if_neg hne]
    rw [mk_breakdown_of_nodup claims hnd]
    simp only [List.map_map, py_min_eq, py_max_eq]
    rfl
  · intro t ht
    simp only [List.mem_cons, List.not_mem_nil, or_false, not_or] at ht
    rw [weight_of, if_neg ht.1, if_neg ht.2.1, if_neg ht.2.2.1, if_neg ht.2.2.2]

/-- Witness for the amended C3 at the two-claim counterexample input. -/
theorem compute_trust_score_amended_witness :
    ([cexRentClaim, cexBankClaim] ≠ ([] : List Claim)) ∧
    (([cexRentClaim, cexBankClaim].map (fun c => c.claim_type)).Nodup) ∧
    (compute_trust_score [cexRentClaim, cexBankClaim]).score =
      round_to 1 (min 100 (max 0 (([cexRentClaim, cexBankClaim].map (fun c =>
        round_to 1 (raw_sub_score c.claim_type c.claim_data * weight_of c.claim_type))).sum))) :=
  ⟨by simp, by decide,
   (compute_trust_score_amended [cexRentClaim, cexBankClaim] (by simp) (by decide)).1⟩

end Prism
